import Mathlib

/-!
Verification development for a small fitness-tracking backend
(single source file `main.py`): user registration/login, daily stats,
hydration updates, workout logging, exercise search and analytics.

The flat-file stores are modelled as explicit values threaded through the
handlers (`List User` for `users.json`, `List WorkoutEntry` for
`workouts.json`); a handler that persists returns the new store, a handler
that fails or does not call a save function returns the store unchanged.
Randomness (`random.randint`, `uuid.uuid4().hex`, heatmap draws) is modelled
by explicit parameters ranging over all possible draws.  Python floats are
modelled as exact rationals (`Rat`); Python `int()` on a rational is
truncation toward zero (`pyInt` below).  Fallible handlers return
`Except HTTPException`.
-/

namespace Main

/-- Embedded `Stats` record (`main.py` lines 104-110). -/
structure Stats where
  steps : Int
  stepGoal : Int
  calories : Int
  calGoal : Int
  hydration : Int
deriving DecidableEq, Repr

/-- Embedded stored user object (`main.py` lines 99-111).  `email` is
`Option String` because the pydantic field is `Optional[str]` and `null`
is stored verbatim. -/
structure User where
  user_id : String
  username : String
  email : Option String
  password : String
  stats : Stats
deriving DecidableEq, Repr

/-- Request body for register/login (`UserAuth`, `main.py` lines 27-31). -/
structure UserAuth where
  username : Option String
  password : String
  email : Option String
deriving DecidableEq, Repr

/-- Request body for hydration update (`main.py` lines 33-35). -/
structure HydrationUpdate where
  user_id : String
  hydration : Int
deriving DecidableEq, Repr

/-- One set of an exercise (`main.py` lines 37-40): `kg: float` is modelled
as an exact rational. -/
structure Set where
  kg : Rat
  reps : Int
  completed : Bool
deriving DecidableEq, Repr

/-- One exercise of a workout (`main.py` lines 42-44). -/
structure Exercise where
  name : String
  sets : List Set
deriving DecidableEq, Repr

/-- Workout-save request body (`main.py` lines 46-50). -/
structure WorkoutSession where
  user_id : String
  duration_seconds : Int
  exercises : List Exercise
  date : Option String
deriving DecidableEq, Repr

/-- Stored workout entry (`main.py` lines 173-179). -/
structure WorkoutEntry where
  id : String
  user_id : String
  date : String
  duration : Int
  exercises : List Exercise
deriving DecidableEq, Repr

/-- An HTTP error raised by a handler (`fastapi.HTTPException`). -/
structure HTTPException where
  status_code : Nat
  detail : String
deriving DecidableEq, Repr

/-- Equality of handler results is decidable, so concrete runs can be
checked by evaluation. -/
instance {ε α : Type} [DecidableEq ε] [DecidableEq α] : DecidableEq (Except ε α)
  | .error e, .error f =>
    if h : e = f then isTrue (by rw [h]) else isFalse fun hh => h (by injection hh)
  | .error _, .ok _ => isFalse fun hh => Except.noConfusion hh
  | .ok _, .error _ => isFalse fun hh => Except.noConfusion hh
  | .ok x, .ok y =>
    if h : x = y then isTrue (by rw [h]) else isFalse fun hh => h (by injection hh)

/-- Python `int()` applied to an exact rational: truncation toward zero
(the floor for nonnegative arguments, the ceiling — `-⌊-q⌋` — for negative
ones). -/
def pyInt (q : Rat) : Int := if q < 0 then -(Rat.floor (-q)) else Rat.floor q

/-- Python truthiness of an `Optional[str]` value: `None` and `""` are falsy. -/
def strFalsy : Option String → Bool
  | none => true
  | some s => s.isEmpty

/-- Python `a or b` on `Optional[str]` values: `b` when `a` is falsy. -/
def pyOrStr (a b : Option String) : Option String :=
  if strFalsy a then b else a

/-- Response body of a successful registration (`main.py` line 116). -/
structure RegisterResp where
  status : String
  message : String
deriving DecidableEq, Repr

/-- `register` (`main.py` lines 86-116).  `fresh_hex` models
`uuid.uuid4().hex` (a 32-character lowercase-hex string) as a list of
characters; the code keeps its first 8 characters.  `if not user.username`
rejects both an absent and an empty username.  On success the new user is
appended and the whole collection saved; on failure nothing is written, so
the returned store is the input store only in the success case (errors
carry no store). -/
def register (fresh_hex : List Char) (user : UserAuth) (db : List User) :
    Except HTTPException (RegisterResp × List User) :=
  match user.username with
  | none => .error { status_code := 400, detail := "Username is required for registration" }
  | some uname =>
    if uname.isEmpty then
      .error { status_code := 400, detail := "Username is required for registration" }
    else if db.any (fun u => u.email == user.email) then
      .error { status_code := 400, detail := "User already exists" }
    else
      let new_user : User :=
        { user_id := "user_" ++ String.mk (fresh_hex.take 8)
          username := uname
          email := user.email
          password := user.password
          stats := { steps := 0, stepGoal := 10000, calories := 0,
                     calGoal := 2500, hydration := 0 } }
      .ok ({ status := "success", message := "Identity created" }, db ++ [new_user])

/-- The store as persisted after a handler call: the store carried by a
successful result, the untouched input store on error (the handlers raise
before any save). -/
def persisted {ρ : Type} (res : Except HTTPException (ρ × List User))
    (db : List User) : List User :=
  match res with
  | .ok (_, db2) => db2
  | .error _ => db

/-- Response body of a successful login (`main.py` lines 132-137). -/
structure LoginResp where
  status : String
  user_id : String
  username : String
  token : String
deriving DecidableEq, Repr

/-- `login` (`main.py` lines 118-139): `login_id = user.email or user.username`
(Python `or`, so an empty or absent email falls through to the username);
the first stored user whose `email` or `username` equals `login_id` is
looked up and its plaintext password compared. -/
def login (user : UserAuth) (db : List User) : Except HTTPException LoginResp :=
  match pyOrStr user.email user.username with
  | none => .error { status_code := 400, detail := "Email or Username required" }
  | some lid =>
    if lid.isEmpty then
      .error { status_code := 400, detail := "Email or Username required" }
    else
      match db.find? (fun u => u.email == some lid || u.username == lid) with
      | some found_user =>
        if found_user.password == user.password then
          .ok { status := "success", user_id := found_user.user_id,
                username := found_user.username, token := "demo-token-123" }
        else .error { status_code := 401, detail := "Invalid credentials" }
      | none => .error { status_code := 401, detail := "Invalid credentials" }

/-- `get_stats` (`main.py` lines 143-154): `rand_steps` models
`random.randint(2000, 12000)`.  `calories = int(steps * 0.05)`; over the
whole range [2000, 12000] of the draw, IEEE-754 evaluation of
`int(steps * 0.05)` coincides with exact evaluation at `0.05 = 5/100`, which
is how it is modelled.  No save function is called, so the persisted store
(second component) is the input store: the in-memory mutation is discarded. -/
def get_stats (user_id : String) (rand_steps : Int) (db : List User) :
    Except HTTPException (Stats × List User) :=
  match db.find? (fun u => u.user_id == user_id) with
  | none => .error { status_code := 404, detail := "User not found" }
  | some user =>
    .ok ({ user.stats with
           steps := rand_steps
           calories := pyInt ((rand_steps : Rat) * (5 / 100)) }, db)

/-- Replace the first element satisfying `p` by its image under `f`:
models the in-place mutation of the object returned by `next(...)`
followed by saving the whole list. -/
def updateFirst {α : Type} (p : α → Bool) (f : α → α) : List α → List α
  | [] => []
  | x :: xs => if p x then f x :: xs else x :: updateFirst p f xs

/-- `update_hydration` (`main.py` lines 156-167): 404 when no stored user
has the requested `user_id`; otherwise the first such user's
`stats.hydration` is set to the request's level and the collection saved. -/
def update_hydration (update : HydrationUpdate) (db : List User) :
    Except HTTPException ((String × Int) × List User) :=
  match db.find? (fun u => u.user_id == update.user_id) with
  | none => .error { status_code := 404, detail := "User not found" }
  | some _ =>
    let db2 := updateFirst (fun u => u.user_id == update.user_id)
      (fun u => { u with stats := { u.stats with hydration := update.hydration } }) db
    .ok (("updated", update.hydration), db2)

/-- `save_workout` (`main.py` lines 171-182): `fresh_hex` models
`uuid.uuid4().hex`, `now_iso` models `datetime.now().isoformat()`. -/
def save_workout (fresh_hex : List Char) (now_iso : String)
    (workout : WorkoutSession) (ws : List WorkoutEntry) :
    (String × List WorkoutEntry) :=
  let entry : WorkoutEntry :=
    { id := "wo_" ++ String.mk (fresh_hex.take 8)
      user_id := workout.user_id
      date := workout.date.getD now_iso
      duration := workout.duration_seconds
      exercises := workout.exercises }
  (entry.id, ws ++ [entry])

/-- The fixed exercise catalog (`main.py` lines 184-190), in source order. -/
def EXERCISE_DB : List String :=
  ["Bench Press", "Incline Dumbbell Press", "Cable Fly",
   "Squat", "Leg Press", "Bulgarian Split Squat",
   "Deadlift", "Pull Up", "Lat Pulldown", "Dumbbell Row",
   "Overhead Press", "Lateral Raise", "Face Pull",
   "Bicep Curl", "Hammer Curl", "Tricep Pushdown", "Skullcrusher"]

/-- Python's substring test `needle in hay` on sequences of characters:
`needle` occurs contiguously somewhere in `hay`. -/
def substrChars (needle : List Char) : List Char → Bool
  | [] => needle.isEmpty
  | c :: rest => needle.isPrefixOf (c :: rest) || substrChars needle rest

/-- Python `str.lower()` viewed as a sequence of characters. -/
def lowerChars (s : String) : List Char := s.toList.map Char.toLower

/-- `search_exercises` (`main.py` lines 192-195): empty query returns the
whole catalog, otherwise the catalog entries whose lowercased name contains
the lowercased query as a substring (Python `in`), in catalog order. -/
def search_exercises (q : String) : List String :=
  if q.isEmpty then EXERCISE_DB
  else EXERCISE_DB.filter (fun ex => substrChars (lowerChars q) (lowerChars ex))

/-- The triple-nested accumulation loop of `get_history`
(`main.py` lines 204-208). -/
def volumeFold (user_workouts : List WorkoutEntry) : Rat :=
  user_workouts.foldl (fun acc w =>
    w.exercises.foldl (fun acc2 ex =>
      ex.sets.foldl (fun acc3 s => acc3 + s.kg * (s.reps : Rat)) acc2) acc) 0

/-- `summary` part of the analytics payload (`main.py` lines 217-222). -/
structure Summary where
  total_workouts : Nat
  avg_duration : String
  total_volume : String
  prs : Nat
deriving DecidableEq, Repr

/-- `chart` part of the analytics payload (`main.py` lines 223-226). -/
structure Chart where
  labels : List String
  data : List Rat
deriving DecidableEq, Repr

/-- Full analytics payload (`main.py` lines 216-228). -/
structure History where
  summary : Summary
  chart : Chart
  heatmap : List Nat
deriving DecidableEq, Repr

/-- `get_history` (`main.py` lines 199-228).  `heat_draws` models the 365
independent `random.choice([0,1,2,3])` draws.  `int((total_volume +
150000)/1000)` is Python truncation toward zero of an exact quotient. -/
def get_history (user_id : String) (heat_draws : List Nat)
    (all_workouts : List WorkoutEntry) : History :=
  let user_workouts := all_workouts.filter (fun w => w.user_id == user_id)
  let total_volume := volumeFold user_workouts
  let chart_data : List Rat :=
    if total_volume > 0 then
      [12000, 15000, 11000, 18000, 20000, 24000] ++ [total_volume]
    else [12000, 15000, 11000, 18000, 20000, 24000]
  { summary :=
      { total_workouts := user_workouts.length + 42
        avg_duration := "45m"
        total_volume := toString (pyInt ((total_volume + 150000) / 1000)) ++ "k"
        prs := 12 }
    chart :=
      { labels := ["Jan", "Feb", "Mar", "Apr", "May", "Jun", "Now"]
        data := chart_data }
    heatmap := heat_draws }

/-- Volume of one set, `kg * reps`, as the spec states it. -/
def setVolume (s : Set) : Rat := s.kg * (s.reps : Rat)

/-- Volume of one exercise: sum of its sets' volumes. -/
def exerciseVolume (ex : Exercise) : Rat := (ex.sets.map setVolume).sum

/-- Volume of one workout: sum over its exercises. -/
def workoutVolume (w : WorkoutEntry) : Rat := (w.exercises.map exerciseVolume).sum

/-- Total volume of a user's workouts as the spec states it: the sum of
`kg * reps` over every set of every exercise of every matched workout. -/
def totalVolume (user_id : String) (ws : List WorkoutEntry) : Rat :=
  ((ws.filter (fun w => w.user_id == user_id)).map workoutVolume).sum

/-- A lowercase hexadecimal digit, the alphabet of `uuid.uuid4().hex`. -/
def isLowerHex (c : Char) : Bool := c.isDigit || (('a' ≤ c) && (c ≤ 'f'))

/-! ### Helper lemmas -/

/-- Folding the per-set accumulation over a list of sets adds the list's
total set volume to the accumulator. -/
theorem sets_foldl_eq (sets : List Set) (a : Rat) :
    sets.foldl (fun acc3 s => acc3 + s.kg * (s.reps : Rat)) a
      = a + (sets.map setVolume).sum := by
  induction sets generalizing a with
  | nil => simp
  | cons s t ih =>
    rw [List.foldl_cons, ih]
    simp only [List.map_cons, List.sum_cons, setVolume]
    ring

/-- Folding the per-exercise accumulation adds the exercises' total volume. -/
theorem exs_foldl_eq (exs : List Exercise) (a : Rat) :
    exs.foldl (fun acc2 ex =>
      ex.sets.foldl (fun acc3 s => acc3 + s.kg * (s.reps : Rat)) acc2) a
      = a + (exs.map exerciseVolume).sum := by
  induction exs generalizing a with
  | nil => simp
  | cons e t ih =>
    rw [List.foldl_cons, ih]
    simp only [List.map_cons, List.sum_cons, sets_foldl_eq, exerciseVolume]
    ring

/-- Folding the per-workout accumulation adds the workouts' total volume. -/
theorem ws_foldl_eq (l : List WorkoutEntry) (a : Rat) :
    l.foldl (fun acc w =>
      w.exercises.foldl (fun acc2 ex =>
        ex.sets.foldl (fun acc3 s => acc3 + s.kg * (s.reps : Rat)) acc2) acc) a
      = a + (l.map workoutVolume).sum := by
  induction l generalizing a with
  | nil => simp
  | cons w t ih =>
    rw [List.foldl_cons, ih]
    simp only [List.map_cons, List.sum_cons, exs_foldl_eq, workoutVolume]
    ring

/-- The nested accumulation loop of `get_history` computes the sum of the
matched workouts' volumes. -/
theorem volumeFold_eq (ws : List WorkoutEntry) :
    volumeFold ws = (ws.map workoutVolume).sum := by
  unfold volumeFold
  rw [ws_foldl_eq]
  ring

/-- The loop of `get_history`, run on the filtered workouts, computes
exactly the spec's `totalVolume`. -/
theorem volumeFold_filter (uid : String) (ws : List WorkoutEntry) :
    volumeFold (ws.filter (fun w => w.user_id == uid)) = totalVolume uid ws := by
  rw [volumeFold_eq]; rfl

/-- The executable substring test decides the infix relation. -/
theorem substrChars_iff (n h : List Char) : substrChars n h = true ↔ n <:+: h := by
  induction h with
  | nil => simp [substrChars, List.isEmpty_iff, List.infix_nil]
  | cons c rest ih =>
    simp [substrChars, Bool.or_eq_true, List.isPrefixOf_iff_prefix, ih,
      List.infix_cons_iff]

/-- The computable `Rat.floor` is the mathematical floor. -/
theorem rat_floor_eq (q : Rat) : Rat.floor q = ⌊q⌋ := by
  rw [Rat.floor_def', Rat.floor_def]

/-- Python truncation agrees with the floor on nonnegative rationals. -/
theorem pyInt_eq_floor (q : Rat) (h : 0 ≤ q) : pyInt q = ⌊q⌋ := by
  unfold pyInt
  rw [if_neg (not_lt.mpr h), rat_floor_eq]

/-- A successful `List.find?` splits the list at the first satisfying
element. -/
theorem find?_some_decomp {α : Type} {p : α → Bool} {l : List α} {a : α}
    (h : List.find? p l = some a) :
    p a = true ∧ ∃ pre post, l = pre ++ a :: post ∧ ∀ v ∈ pre, p v = false := by
  induction l with
  | nil => simp at h
  | cons x xs ih =>
    by_cases hx : p x = true
    · rw [List.find?_cons_of_pos _ hx] at h
      obtain rfl : x = a := by injection h
      exact ⟨hx, [], xs, rfl, by simp⟩
    · rw [List.find?_cons_of_neg _ hx] at h
      obtain ⟨hpa, pre, post, hsplit, hpre⟩ := ih h
      refine ⟨hpa, x :: pre, post, by rw [hsplit, List.cons_append], ?_⟩
      intro v hv
      rcases List.mem_cons.mp hv with rfl | hv2
      · exact Bool.eq_false_iff.mpr hx
      · exact hpre v hv2

/-- `List.find?` returns the element after a prefix of non-matches. -/
theorem find?_append_cons {α : Type} (p : α → Bool) (pre post : List α) (a : α)
    (hpre : ∀ v ∈ pre, p v = false) (ha : p a = true) :
    List.find? p (pre ++ a :: post) = some a := by
  induction pre with
  | nil => simpa using List.find?_cons_of_pos post ha
  | cons x xs ih =>
    have hx : p x = false := hpre x (List.mem_cons_self x xs)
    rw [List.cons_append, List.find?_cons_of_neg _ (by simp [hx])]
    exact ih fun v hv => hpre v (List.mem_cons_of_mem _ hv)

/-- `updateFirst` rewrites the element after a prefix of non-matches and
leaves everything else in place. -/
theorem updateFirst_append_cons {α : Type} (p : α → Bool) (f : α → α)
    (pre post : List α) (a : α)
    (hpre : ∀ v ∈ pre, p v = false) (ha : p a = true) :
    updateFirst p f (pre ++ a :: post) = pre ++ f a :: post := by
  induction pre with
  | nil => simp [updateFirst, ha]
  | cons x xs ih =>
    have hx : p x = false := hpre x (List.mem_cons_self x xs)
    rw [List.cons_append, updateFirst, if_neg (by simp [hx]), List.cons_append,
      ih fun v hv => hpre v (List.mem_cons_of_mem _ hv)]

/-! ### Claims -/

/-- C1 counterexample: with a single stored workout for `u1` holding one
set of `kg = -150000.5`, `reps = 1`, `get_history` reports
`summary.total_volume = "0k"` (Python `int()` truncates toward zero) while
the claimed `floor((total_volume + 150000)/1000)` formatting gives
`"-1k"`. -/
theorem C1_counterexample :
    (get_history ("u1") []
        [{ id := "w1", user_id := "u1", date := "d", duration := 0,
           exercises := [{ name := "Bench Press",
                           sets := [{ kg := -300001/2, reps := 1, completed := true }] }] }]
      ).summary.total_volume = "0k"
    ∧ toString (⌊((totalVolume ("u1")
        [{ id := "w1", user_id := "u1", date := "d", duration := 0,
           exercises := [{ name := "Bench Press",
                           sets := [{ kg := -300001/2, reps := 1, completed := true }] }] }]
        + 150000) / 1000 : Rat)⌋ : Int) ++ "k" = "-1k" := by
  have hv : totalVolume ("u1")
      [{ id := "w1", user_id := "u1", date := "d", duration := 0,
         exercises := [{ name := "Bench Press",
                         sets := [{ kg := -300001/2, reps := 1, completed := true }] }] }]
      = -300001/2 := by
    norm_num [totalVolume, workoutVolume, exerciseVolume, setVolume, List.filter]
  have harg : ((-300001/2 : Rat) + 150000) / 1000 = -1/2000 := by norm_num
  constructor
  · simp only [get_history]
    rw [volumeFold_filter, hv, harg]
    have hp : pyInt (-1/2000) = 0 := by
      unfold pyInt
      rw [if_pos (by norm_num), rat_floor_eq]
      norm_num
    rw [hp]
    rfl
  · rw [hv, harg]
    have hfl : (⌊(-1/2000 : Rat)⌋ : Int) = -1 := by norm_num
    rw [hfl]
    rfl

/-- C1 (amended): `get_history` returns `summary.total_workouts` equal to
the count of matched workouts plus 42, and `summary.total_volume` equal to
the truncation toward zero of `(total_volume + 150000)/1000` formatted as
`"<n>k"`, where `total_volume` is the sum of `kg * reps` over every set of
every exercise of every matched workout; the truncation coincides with the
claimed floor whenever `total_volume` is nonnegative. -/
theorem C1_amended (uid : String) (heat : List Nat) (ws : List WorkoutEntry) :
    (get_history uid heat ws).summary.total_workouts =
        (ws.filter (fun w => w.user_id == uid)).length + 42
    ∧ (get_history uid heat ws).summary.total_volume =
        toString (pyInt ((totalVolume uid ws + 150000) / 1000)) ++ "k"
    ∧ (0 ≤ totalVolume uid ws →
        pyInt ((totalVolume uid ws + 150000) / 1000) =
          ⌊(totalVolume uid ws + 150000) / 1000⌋) := by
  refine ⟨rfl, ?_, ?_⟩
  · simp only [get_history]
    rw [volumeFold_filter]
  · intro h
    apply pyInt_eq_floor
    apply div_nonneg _ (by norm_num)
    linarith

/-- C1 amended witness: with no stored workouts the truncation equals the
floor and the summary reads `"150k"`. -/
theorem C1_amended_witness :
    (get_history ("u") [] []).summary.total_volume =
        toString (pyInt ((totalVolume ("u") [] + 150000) / 1000)) ++ "k"
    ∧ pyInt ((totalVolume ("u") [] + 150000) / 1000) =
        ⌊(totalVolume ("u") [] + 150000) / 1000⌋ :=
  ⟨(C1_amended ("u") [] []).2.1, (C1_amended ("u") [] []).2.2 (by decide)⟩

/-- C2: `chart.labels` is always the fixed 7-element month sequence, and
`chart.data` is the fixed 6-point baseline when `total_volume ≤ 0`, with
the real `total_volume` appended as a 7th point when `total_volume > 0`. -/
theorem C2_chart (uid : String) (heat : List Nat) (ws : List WorkoutEntry) :
    (get_history uid heat ws).chart.labels =
        ["Jan", "Feb", "Mar", "Apr", "May", "Jun", "Now"]
    ∧ (totalVolume uid ws ≤ 0 →
        (get_history uid heat ws).chart.data =
          [12000, 15000, 11000, 18000, 20000, 24000])
    ∧ (0 < totalVolume uid ws →
        (get_history uid heat ws).chart.data =
          [12000, 15000, 11000, 18000, 20000, 24000] ++ [totalVolume uid ws]) := by
  refine ⟨rfl, ?_, ?_⟩
  · intro h
    simp only [get_history]
    rw [volumeFold_filter, if_neg (not_lt.mpr h)]
  · intro h
    simp only [get_history]
    rw [volumeFold_filter, if_pos h]

/-- C2 witness: a store with one workout of positive volume for the queried
user yields the 7-point chart, and an empty store yields the baseline. -/
theorem C2_chart_witness :
    (get_history ("u1") []
        [{ id := "w1", user_id := "u1", date := "d", duration := 60,
           exercises := [{ name := "Squat",
                           sets := [{ kg := 100, reps := 5, completed := true }] }] }]
      ).chart.data =
      [12000, 15000, 11000, 18000, 20000, 24000] ++
        [totalVolume ("u1")
          [{ id := "w1", user_id := "u1", date := "d", duration := 60,
             exercises := [{ name := "Squat",
                             sets := [{ kg := 100, reps := 5, completed := true }] }] }]]
    ∧ (get_history ("u2") [] []).chart.data =
        [12000, 15000, 11000, 18000, 20000, 24000] :=
  ⟨(C2_chart ("u1") [] _).2.2
      (by norm_num [totalVolume, workoutVolume, exerciseVolume, setVolume, List.filter]),
    (C2_chart ("u2") [] []).2.1
      (by norm_num [totalVolume, List.filter])⟩

/-- C3 counterexample: the biconditional part of the claim holds, but its
parenthetical consequence fails.  User A registers with username
`b@x.com` (an email-shaped username) and password `p`; user B then
registers with email `b@x.com` and the same password `p`.  Logging in with
the email and password given at B's registration returns A's `user_id`,
not the one issued to B. -/
theorem C3_counterexample :
    register (("aaaabbbbccccddddeeeeffff00001111").toList)
        { username := some ("b@x.com"), password := "p", email := some ("a@x.com") } [] =
      .ok ({ status := "success", message := "Identity created" },
        [{ user_id := "user_aaaabbbb", username := "b@x.com", email := some ("a@x.com"),
           password := "p",
           stats := { steps := 0, stepGoal := 10000, calories := 0, calGoal := 2500,
                      hydration := 0 } }])
    ∧ register (("22223333444455556666777788889999").toList)
        { username := some ("bob"), password := "p", email := some ("b@x.com") }
        [{ user_id := "user_aaaabbbb", username := "b@x.com", email := some ("a@x.com"),
           password := "p",
           stats := { steps := 0, stepGoal := 10000, calories := 0, calGoal := 2500,
                      hydration := 0 } }] =
      .ok ({ status := "success", message := "Identity created" },
        [{ user_id := "user_aaaabbbb", username := "b@x.com", email := some ("a@x.com"),
           password := "p",
           stats := { steps := 0, stepGoal := 10000, calories := 0, calGoal := 2500,
                      hydration := 0 } },
         { user_id := "user_22223333", username := "bob", email := some ("b@x.com"),
           password := "p",
           stats := { steps := 0, stepGoal := 10000, calories := 0, calGoal := 2500,
                      hydration := 0 } }])
    ∧ login { username := none, password := "p", email := some ("b@x.com") }
        [{ user_id := "user_aaaabbbb", username := "b@x.com", email := some ("a@x.com"),
           password := "p",
           stats := { steps := 0, stepGoal := 10000, calories := 0, calGoal := 2500,
                      hydration := 0 } },
         { user_id := "user_22223333", username := "bob", email := some ("b@x.com"),
           password := "p",
           stats := { steps := 0, stepGoal := 10000, calories := 0, calGoal := 2500,
                      hydration := 0 } }] =
      .ok { status := "success", user_id := "user_aaaabbbb", username := "b@x.com",
            token := "demo-token-123" }
    ∧ ("user_aaaabbbb" : String) ≠ "user_22223333" := by
  refine ⟨by decide, by decide, by decide, by decide⟩

/-- C3 (amended): `login` succeeds exactly when some stored user's email or
username equals the resolved identifier and the first such user (in storage
order) has the supplied plaintext password, and then it returns that first
user's `user_id`; on no match, or a password mismatch of the first match,
it fails with 401.  The registered user is returned only when it is that
first match. -/
theorem C3_amended (ua : UserAuth) (db : List User) (lid : String)
    (hres : pyOrStr ua.email ua.username = some lid) (hne : lid ≠ "") :
    (∀ r, login ua db = .ok r ↔
      ∃ pre fu post, db = pre ++ fu :: post
        ∧ (∀ v ∈ pre, ¬(v.email = some lid ∨ v.username = lid))
        ∧ (fu.email = some lid ∨ fu.username = lid)
        ∧ fu.password = ua.password
        ∧ r = { status := "success", user_id := fu.user_id,
                username := fu.username, token := "demo-token-123" })
    ∧ ((∀ v ∈ db, ¬(v.email = some lid ∨ v.username = lid)) →
        login ua db = .error { status_code := 401, detail := "Invalid credentials" })
    ∧ (∀ pre fu post, db = pre ++ fu :: post →
        (∀ v ∈ pre, ¬(v.email = some lid ∨ v.username = lid)) →
        (fu.email = some lid ∨ fu.username = lid) →
        fu.password ≠ ua.password →
        login ua db = .error { status_code := 401, detail := "Invalid credentials" }) := by
  have hemp : ¬ lid.isEmpty = true := fun hh => hne ((String.isEmpty_iff lid).mp hh)
  have hbr : ∀ v : User,
      ((v.email == some lid || v.username == lid) = true)
        ↔ (v.email = some lid ∨ v.username = lid) := by
    intro v
    simp [Bool.or_eq_true, beq_iff_eq]
  have hstep : login ua db =
      (match db.find? (fun u => u.email == some lid || u.username == lid) with
       | some found_user =>
         if found_user.password == ua.password then
           .ok { status := "success", user_id := found_user.user_id,
                 username := found_user.username, token := "demo-token-123" }
         else .error { status_code := 401, detail := "Invalid credentials" }
       | none => .error { status_code := 401, detail := "Invalid credentials" }) := by
    simp only [login, hres]
    rw [if_neg hemp]
  refine ⟨?_, ?_, ?_⟩
  · intro r
    cases hfind : db.find? (fun u => u.email == some lid || u.username == lid) with
    | none =>
      have hstep2 : login ua db =
          .error { status_code := 401, detail := "Invalid credentials" } := by
        rw [hstep, hfind]
      rw [hstep2]
      constructor
      · intro hok
        exact absurd hok (by simp)
      · rintro ⟨pre, fu, post, hsplit, hpre, hm, hpw, hr⟩
        have hcontra : db.find? (fun u => u.email == some lid || u.username == lid)
            = some fu := by
          rw [hsplit]
          exact find?_append_cons _ pre post fu
            (fun v hv => Bool.eq_false_iff.mpr fun hb => hpre v hv ((hbr v).mp hb))
            ((hbr fu).mpr hm)
        rw [hfind] at hcontra
        exact Option.noConfusion hcontra
    | some fu =>
      obtain ⟨hpfu, pre, post, hsplit, hprefalse⟩ := find?_some_decomp hfind
      have hstep2 : login ua db =
          if (fu.password == ua.password) = true then
            Except.ok { status := "success", user_id := fu.user_id,
                        username := fu.username, token := "demo-token-123" }
          else Except.error { status_code := 401, detail := "Invalid credentials" } := by
        rw [hstep, hfind]
      rw [hstep2]
      constructor
      · intro hok
        by_cases hpw : (fu.password == ua.password) = true
        · rw [if_pos hpw] at hok
          refine ⟨pre, fu, post, hsplit,
            fun v hv hor => absurd ((hbr v).mpr hor) (by rw [hprefalse v hv]; simp),
            (hbr fu).mp hpfu, beq_iff_eq.mp hpw, ?_⟩
          injection hok with h1
          exact h1.symm
        · rw [if_neg hpw] at hok
          exact absurd hok (by simp)
      · rintro ⟨pre2, fu2, post2, hsplit2, hpre2, hm2, hpw2, hr⟩
        have hfind2 : db.find? (fun u => u.email == some lid || u.username == lid)
            = some fu2 := by
          rw [hsplit2]
          exact find?_append_cons _ pre2 post2 fu2
            (fun v hv => Bool.eq_false_iff.mpr fun hb => hpre2 v hv ((hbr v).mp hb))
            ((hbr fu2).mpr hm2)
        have hfu : fu2 = fu := by
          rw [hfind] at hfind2
          injection hfind2 with h1
          exact h1.symm
        rw [if_pos (beq_iff_eq.mpr (hfu ▸ hpw2)), hr, hfu]
  · intro h
    have hfind : db.find? (fun u => u.email == some lid || u.username == lid) = none :=
      List.find?_eq_none.mpr fun x hx hb => h x hx ((hbr x).mp hb)
    rw [hstep, hfind]
  · intro pre fu post hsplit hpre hm hpw
    have hfind : db.find? (fun u => u.email == some lid || u.username == lid)
        = some fu := by
      rw [hsplit]
      exact find?_append_cons _ pre post fu
        (fun v hv => Bool.eq_false_iff.mpr fun hb => hpre v hv ((hbr v).mp hb))
        ((hbr fu).mpr hm)
    have hstep2 : login ua db =
        if (fu.password == ua.password) = true then
          Except.ok { status := "success", user_id := fu.user_id,
                      username := fu.username, token := "demo-token-123" }
        else Except.error { status_code := 401, detail := "Invalid credentials" } := by
      rw [hstep, hfind]
    rw [hstep2, if_neg fun hb => hpw (beq_iff_eq.mp hb)]

/-- C3 amended witness: with a single stored user matched by email and the
right password, login returns that user's id. -/
theorem C3_amended_witness :
    login { username := none, password := "pw", email := some ("e@x") }
        [{ user_id := "user_1", username := "alice", email := some ("e@x"),
           password := "pw",
           stats := { steps := 0, stepGoal := 10000, calories := 0, calGoal := 2500,
                      hydration := 0 } }] =
      .ok { status := "success", user_id := "user_1", username := "alice",
            token := "demo-token-123" } :=
  ((C3_amended { username := none, password := "pw", email := some ("e@x") }
      [{ user_id := "user_1", username := "alice", email := some ("e@x"),
         password := "pw",
         stats := { steps := 0, stepGoal := 10000, calories := 0, calGoal := 2500,
                    hydration := 0 } }] ("e@x") rfl (by decide)).1 _).mpr
    ⟨[], _, [], rfl, by simp, Or.inl rfl, rfl, rfl⟩

/-- C4: `register` fails with 400 "Username is required for registration"
when the username is absent, and (with a usable username) fails with 400
"User already exists" when some stored user has the request's email; in
both failure cases the persisted user collection is unchanged. -/
theorem C4_register_failures (fresh : List Char) (u : UserAuth) (db : List User) :
    (u.username = none →
      register fresh u db =
        .error { status_code := 400, detail := "Username is required for registration" }
      ∧ persisted (register fresh u db) db = db)
    ∧ (∀ uname, u.username = some uname → uname ≠ "" →
        (∃ x ∈ db, x.email = u.email) →
        register fresh u db =
          .error { status_code := 400, detail := "User already exists" }
        ∧ persisted (register fresh u db) db = db) := by
  constructor
  · intro hn
    have heq : register fresh u db =
        .error { status_code := 400, detail := "Username is required for registration" } := by
      simp only [register, hn]
    exact ⟨heq, by rw [heq]; rfl⟩
  · intro uname hu hne hdup
    have hem : ¬ uname.isEmpty = true := fun hh => hne ((String.isEmpty_iff uname).mp hh)
    have hany : db.any (fun x => x.email == u.email) = true := by
      obtain ⟨x, hx, hmail⟩ := hdup
      exact List.any_eq_true.mpr ⟨x, hx, beq_iff_eq.mpr hmail⟩
    have heq : register fresh u db =
        .error { status_code := 400, detail := "User already exists" } := by
      simp only [register, hu]
      rw [if_neg hem, if_pos hany]
    exact ⟨heq, by rw [heq]; rfl⟩

/-- C4 witness: registering without a username, and registering a duplicate
email, each fail with the claimed 400 error. -/
theorem C4_witness :
    register [] { username := none, password := "p", email := none } [] =
      .error { status_code := 400, detail := "Username is required for registration" }
    ∧ register [] { username := some ("alice"), password := "p", email := some ("e@x") }
        [{ user_id := "u1", username := "bob", email := some ("e@x"), password := "q",
           stats := { steps := 0, stepGoal := 10000, calories := 0, calGoal := 2500,
                      hydration := 0 } }] =
      .error { status_code := 400, detail := "User already exists" } :=
  ⟨((C4_register_failures [] { username := none, password := "p", email := none } []).1
      rfl).1,
    ((C4_register_failures []
      { username := some ("alice"), password := "p", email := some ("e@x") }
      [{ user_id := "u1", username := "bob", email := some ("e@x"), password := "q",
         stats := { steps := 0, stepGoal := 10000, calories := 0, calGoal := 2500,
                    hydration := 0 } }]).2 ("alice") rfl (by decide) (by decide)).1⟩

/-- C5: a successful `register` (usable username, no stored user with the
request's email) appends exactly one new user — id `user_` followed by the
first 8 characters of the uuid hex (8 lowercase hex digits), the supplied
username, email and password verbatim, and the default stats — persists it,
and leaves all previously stored users unchanged in place. -/
theorem C5_register_success (fresh : List Char) (u : UserAuth) (db : List User)
    (uname : String) (hu : u.username = some uname) (hne : uname ≠ "")
    (hdup : ¬ ∃ x ∈ db, x.email = u.email)
    (hlen : fresh.length = 32) (hhex : ∀ c ∈ fresh, isLowerHex c = true) :
    register fresh u db =
      .ok ({ status := "success", message := "Identity created" },
        db ++ [{ user_id := "user_" ++ String.mk (fresh.take 8)
                 username := uname
                 email := u.email
                 password := u.password
                 stats := { steps := 0, stepGoal := 10000, calories := 0,
                            calGoal := 2500, hydration := 0 } }])
    ∧ (fresh.take 8).length = 8
    ∧ (∀ c ∈ fresh.take 8, isLowerHex c = true) := by
  refine ⟨?_, ?_, fun c hc => hhex c (List.take_subset 8 fresh hc)⟩
  · have hem : ¬ uname.isEmpty = true := fun hh => hne ((String.isEmpty_iff uname).mp hh)
    have hany : db.any (fun x => x.email == u.email) = false := by
      rw [Bool.eq_false_iff]
      intro hb
      obtain ⟨x, hx, hbx⟩ := List.any_eq_true.mp hb
      exact hdup ⟨x, hx, beq_iff_eq.mp hbx⟩
    simp only [register, hu]
    rw [if_neg hem, if_neg (by rw [hany]; exact Bool.false_ne_true)]
  · rw [List.length_take, hlen]
    decide

/-- C5 witness: registering into an empty store with a concrete 32-digit
uuid hex. -/
theorem C5_witness :
    register (("0123456789abcdef0123456789abcdef").toList)
        { username := some ("carol"), password := "pw", email := some ("c@x") } [] =
      .ok ({ status := "success", message := "Identity created" },
        [{ user_id :=
             "user_" ++ String.mk ((("0123456789abcdef0123456789abcdef").toList).take 8),
           username := "carol", email := some ("c@x"), password := "pw",
           stats := { steps := 0, stepGoal := 10000, calories := 0, calGoal := 2500,
                      hydration := 0 } }])
    ∧ ((("0123456789abcdef0123456789abcdef").toList).take 8).length = 8 :=
  ⟨(C5_register_success (("0123456789abcdef0123456789abcdef").toList)
      { username := some ("carol"), password := "pw", email := some ("c@x") } []
      ("carol") rfl (by decide) (by decide) (by decide) (by decide)).1,
    (C5_register_success (("0123456789abcdef0123456789abcdef").toList)
      { username := some ("carol"), password := "pw", email := some ("c@x") } []
      ("carol") rfl (by decide) (by decide) (by decide) (by decide)).2.1⟩

/-- C6: `update_hydration` fails with 404 for an unknown `user_id`, leaving
the store unchanged; for a known `user_id` it sets the first matching
user's `stats.hydration` to the requested level (no bounds check), persists,
and returns the level, while every other field of that user and every other
stored user are unchanged in place. -/
theorem C6_update_hydration (upd : HydrationUpdate) (db : List User) :
    ((∀ v ∈ db, v.user_id ≠ upd.user_id) →
      update_hydration upd db = .error { status_code := 404, detail := "User not found" }
      ∧ persisted (update_hydration upd db) db = db)
    ∧ (∀ pre u post, db = pre ++ u :: post →
        (∀ v ∈ pre, v.user_id ≠ upd.user_id) →
        u.user_id = upd.user_id →
        update_hydration upd db =
          .ok (("updated", upd.hydration),
            pre ++ { u with stats := { u.stats with hydration := upd.hydration } }
              :: post)) := by
  constructor
  · intro h
    have hfind : db.find? (fun v => v.user_id == upd.user_id) = none :=
      List.find?_eq_none.mpr fun x hx hb => h x hx (beq_iff_eq.mp hb)
    have heq : update_hydration upd db =
        .error { status_code := 404, detail := "User not found" } := by
      simp only [update_hydration, hfind]
    exact ⟨heq, by rw [heq]; rfl⟩
  · intro pre u post hsplit hpre hu
    have hprf : ∀ v ∈ pre, (v.user_id == upd.user_id) = false := fun v hv =>
      Bool.eq_false_iff.mpr fun hb => hpre v hv (beq_iff_eq.mp hb)
    have hfind : db.find? (fun v => v.user_id == upd.user_id) = some u := by
      rw [hsplit]
      exact find?_append_cons _ pre post u hprf (beq_iff_eq.mpr hu)
    have hupd : updateFirst (fun v => v.user_id == upd.user_id)
        (fun v => { v with stats := { v.stats with hydration := upd.hydration } }) db
        = pre ++ { u with stats := { u.stats with hydration := upd.hydration } }
            :: post := by
      rw [hsplit]
      exact updateFirst_append_cons _ _ pre post u hprf (beq_iff_eq.mpr hu)
    simp only [update_hydration, hfind]
    rw [hupd]

/-- C6 witness: hydrating a stored user surrounded by two others updates
only that user's hydration; hydrating an unknown id fails with 404. -/
theorem C6_witness :
    update_hydration { user_id := "u2", hydration := 7 }
        [{ user_id := "u1", username := "a", email := none, password := "p",
           stats := { steps := 1, stepGoal := 2, calories := 3, calGoal := 4,
                      hydration := 5 } },
         { user_id := "u2", username := "b", email := none, password := "q",
           stats := { steps := 6, stepGoal := 7, calories := 8, calGoal := 9,
                      hydration := 0 } },
         { user_id := "u3", username := "c", email := none, password := "r",
           stats := { steps := 10, stepGoal := 11, calories := 12, calGoal := 13,
                      hydration := 14 } }] =
      .ok (("updated", 7),
        [{ user_id := "u1", username := "a", email := none, password := "p",
           stats := { steps := 1, stepGoal := 2, calories := 3, calGoal := 4,
                      hydration := 5 } },
         { user_id := "u2", username := "b", email := none, password := "q",
           stats := { steps := 6, stepGoal := 7, calories := 8, calGoal := 9,
                      hydration := 7 } },
         { user_id := "u3", username := "c", email := none, password := "r",
           stats := { steps := 10, stepGoal := 11, calories := 12, calGoal := 13,
                      hydration := 14 } }])
    ∧ update_hydration { user_id := "zz", hydration := 7 } [] =
        .error { status_code := 404, detail := "User not found" } :=
  ⟨(C6_update_hydration { user_id := "u2", hydration := 7 } _).2
      [{ user_id := "u1", username := "a", email := none, password := "p",
         stats := { steps := 1, stepGoal := 2, calories := 3, calGoal := 4,
                    hydration := 5 } }]
      { user_id := "u2", username := "b", email := none, password := "q",
        stats := { steps := 6, stepGoal := 7, calories := 8, calGoal := 9,
                   hydration := 0 } }
      [{ user_id := "u3", username := "c", email := none, password := "r",
         stats := { steps := 10, stepGoal := 11, calories := 12, calGoal := 13,
                    hydration := 14 } }]
      rfl (by decide) rfl,
    ((C6_update_hydration { user_id := "zz", hydration := 7 } []).1 (by decide)).1⟩

/-- C7: `get_stats` fails with 404 for an unknown `user_id`; for a stored
user and any draw `r` in [2000, 12000] it returns steps `r`, calories
`⌊r * 0.05⌋`, and the stored `stepGoal`, `calGoal` and `hydration`, and the
persisted store is the input store (nothing is saved). -/
theorem C7_get_stats (uid : String) (r : Int) (db : List User) :
    ((∀ v ∈ db, v.user_id ≠ uid) →
      get_stats uid r db = .error { status_code := 404, detail := "User not found" })
    ∧ (∀ pre u post, db = pre ++ u :: post →
        (∀ v ∈ pre, v.user_id ≠ uid) → u.user_id = uid →
        2000 ≤ r → r ≤ 12000 →
        get_stats uid r db =
          .ok ({ steps := r
                 stepGoal := u.stats.stepGoal
                 calories := ⌊(r : Rat) * (5 / 100)⌋
                 calGoal := u.stats.calGoal
                 hydration := u.stats.hydration }, db)) := by
  constructor
  · intro h
    have hfind : db.find? (fun v => v.user_id == uid) = none :=
      List.find?_eq_none.mpr fun x hx hb => h x hx (beq_iff_eq.mp hb)
    simp only [get_stats, hfind]
  · intro pre u post hsplit hpre hu h1 h2
    have hprf : ∀ v ∈ pre, (v.user_id == uid) = false := fun v hv =>
      Bool.eq_false_iff.mpr fun hb => hpre v hv (beq_iff_eq.mp hb)
    have hfind : db.find? (fun v => v.user_id == uid) = some u := by
      rw [hsplit]
      exact find?_append_cons _ pre post u hprf (beq_iff_eq.mpr hu)
    have hr : (0 : Rat) ≤ (r : Rat) := by
      have : (0 : Int) ≤ r := le_trans (by norm_num) h1
      exact_mod_cast this
    have hcal : pyInt ((r : Rat) * (5 / 100)) = ⌊(r : Rat) * (5 / 100)⌋ :=
      pyInt_eq_floor _ (mul_nonneg hr (by norm_num))
    simp only [get_stats, hfind]
    rw [hcal]

/-- C7 witness: a concrete store and draw. -/
theorem C7_witness :
    get_stats ("u1") 5000
        [{ user_id := "u1", username := "a", email := none, password := "p",
           stats := { steps := 0, stepGoal := 10000, calories := 0, calGoal := 2500,
                      hydration := 3 } }] =
      .ok ({ steps := 5000
             stepGoal := 10000
             calories := ⌊((5000 : Int) : Rat) * (5 / 100)⌋
             calGoal := 2500
             hydration := 3 },
        [{ user_id := "u1", username := "a", email := none, password := "p",
           stats := { steps := 0, stepGoal := 10000, calories := 0, calGoal := 2500,
                      hydration := 3 } }]) :=
  (C7_get_stats ("u1") 5000 _).2 []
    { user_id := "u1", username := "a", email := none, password := "p",
      stats := { steps := 0, stepGoal := 10000, calories := 0, calGoal := 2500,
                 hydration := 3 } }
    [] rfl (by decide) rfl (by decide) (by decide)

/-- C10: the duplicate-email check compares absent emails as equal values:
with no stored null-email user, a registration without an email succeeds
and stores `email = null`; any later registration without an email then
fails with 400 "User already exists". -/
theorem C10_absent_email (fresh fresh2 : List Char) (uname uname2 pw pw2 : String)
    (hn1 : uname ≠ "") (hn2 : uname2 ≠ "") (db : List User)
    (hnone : ∀ v ∈ db, v.email ≠ none) :
    ∃ nu : User, nu.email = none
      ∧ register fresh { username := some uname, password := pw, email := none } db =
          .ok ({ status := "success", message := "Identity created" }, db ++ [nu])
      ∧ register fresh2 { username := some uname2, password := pw2, email := none }
          (db ++ [nu]) =
          .error { status_code := 400, detail := "User already exists" } := by
  have hem1 : ¬ uname.isEmpty = true := fun hh => hn1 ((String.isEmpty_iff uname).mp hh)
  have hem2 : ¬ uname2.isEmpty = true := fun hh => hn2 ((String.isEmpty_iff uname2).mp hh)
  refine ⟨({ user_id := "user_" ++ String.mk (fresh.take 8), username := uname,
             email := none, password := pw,
             stats := { steps := 0, stepGoal := 10000, calories := 0, calGoal := 2500,
                        hydration := 0 } } : User), rfl, ?_, ?_⟩
  · have hany : db.any (fun x => x.email == (none : Option String)) = false := by
      rw [Bool.eq_false_iff]
      intro hb
      obtain ⟨x, hx, hbx⟩ := List.any_eq_true.mp hb
      exact hnone x hx (beq_iff_eq.mp hbx)
    simp only [register]
    rw [if_neg hem1, if_neg (by rw [hany]; exact Bool.false_ne_true)]
  · have hany2 : (db ++
        [({ user_id := "user_" ++ String.mk (fresh.take 8), username := uname,
            email := none, password := pw,
            stats := { steps := 0, stepGoal := 10000, calories := 0, calGoal := 2500,
                       hydration := 0 } } : User)]).any
        (fun x => x.email == (none : Option String)) = true := by
      rw [List.any_append]
      simp
    simp only [register]
    rw [if_neg hem2, if_pos hany2]

/-- C10 witness: two email-less registrations into an empty store. -/
theorem C10_witness :
    ∃ nu : User, nu.email = none
      ∧ register [] { username := some ("dave"), password := "p1", email := none } [] =
          .ok ({ status := "success", message := "Identity created" }, [] ++ [nu])
      ∧ register [] { username := some ("erin"), password := "p2", email := none }
          ([] ++ [nu]) =
          .error { status_code := 400, detail := "User already exists" } :=
  C10_absent_email [] [] ("dave") ("erin") ("p1") ("p2") (by decide) (by decide) []
    (by decide)

/-- C8: `search_exercises` always returns a sublist of the catalog (catalog
order preserved); an entry is returned exactly when the query is empty or
the lowercased entry contains the lowercased query as a substring; and
searching `"press"` returns exactly the four press exercises. -/
theorem C8_search_exercises (q : String) :
    List.Sublist (search_exercises q) EXERCISE_DB
    ∧ (∀ ex, ex ∈ search_exercises q ↔
        ex ∈ EXERCISE_DB ∧ (q = "" ∨ lowerChars q <:+: lowerChars ex))
    ∧ search_exercises ("press") =
        ["Bench Press", "Incline Dumbbell Press", "Leg Press", "Overhead Press"] := by
  refine ⟨?_, ?_, by decide⟩
  · simp only [search_exercises]
    split
    · exact List.Sublist.refl _
    · exact List.filter_sublist _
  · intro ex
    simp only [search_exercises]
    by_cases hq : q.isEmpty = true
    · rw [if_pos hq]
      simp [(String.isEmpty_iff q).mp hq]
    · rw [if_neg hq]
      have hne : ¬ q = "" := fun h => hq ((String.isEmpty_iff q).mpr h)
      simp [List.mem_filter, substrChars_iff, hne]

/-- C8 witness: the concrete `"press"` search, read off the theorem. -/
theorem C8_witness :
    search_exercises ("press") =
      ["Bench Press", "Incline Dumbbell Press", "Leg Press", "Overhead Press"] :=
  (C8_search_exercises ("press")).2.2

/-- C9: for a user_id matching no stored workout, `get_history` succeeds
(there is no error path at all) and returns `summary.total_workouts = 42`,
`summary.total_volume = "150k"` and exactly the 6 baseline chart points. -/
theorem C9_unknown_user_history (uid : String) (heat : List Nat)
    (ws : List WorkoutEntry) (h : ∀ w ∈ ws, w.user_id ≠ uid) :
    get_history uid heat ws =
      { summary := { total_workouts := 42, avg_duration := "45m",
                     total_volume := "150k", prs := 12 },
        chart := { labels := ["Jan", "Feb", "Mar", "Apr", "May", "Jun", "Now"],
                   data := [12000, 15000, 11000, 18000, 20000, 24000] },
        heatmap := heat } := by
  have hf : ws.filter (fun w => w.user_id == uid) = [] := by
    rw [List.filter_eq_nil_iff]
    intro w hw
    simp only [beq_iff_eq]
    exact h w hw
  simp only [get_history]
  rw [hf]
  have h0 : volumeFold ([] : List WorkoutEntry) = 0 := rfl
  rw [h0]
  have harg : ((0 : Rat) + 150000) / 1000 = 150 := by norm_num
  rw [harg]
  have hp : pyInt 150 = 150 := by
    unfold pyInt
    rw [if_neg (by norm_num), rat_floor_eq]
    norm_num
  rw [hp, if_neg (by norm_num : ¬ ((0 : Rat) > 0))]
  rfl

/-- C9 witness: a store holding only another user's workout, queried for an
unknown user. -/
theorem C9_witness :
    get_history ("nobody") []
        [{ id := "w1", user_id := "someone", date := "d", duration := 60,
           exercises := [] }] =
      { summary := { total_workouts := 42, avg_duration := "45m",
                     total_volume := "150k", prs := 12 },
        chart := { labels := ["Jan", "Feb", "Mar", "Apr", "May", "Jun", "Now"],
                   data := [12000, 15000, 11000, 18000, 20000, 24000] },
        heatmap := [] } :=
  C9_unknown_user_history ("nobody") []
    [{ id := "w1", user_id := "someone", date := "d", duration := 60,
       exercises := [] }] (by decide)

end Main
